import Mathlib

/-!
Formal model of the Anomaly Detection + Trust Scoring engine of the
tableau-data-assistant repository (src/utils/anomaly_detection.py and
src/utils/trust_scoring.py), as a shallow embedding in Lean 4.

Modelling conventions:
- Python floats are modelled as exact rationals; the scoring arithmetic
  consists only of field operations, min/max and comparisons, so the
  rational model is exact.
- A pandas DataFrame is a list of named, dtype-tagged columns; a cell is
  either a numeric value, a string, a parsed timestamp (at day
  granularity, because the source only ever inspects timedelta.days), or
  missing (None/NaN/NaT).
- Python code that can raise (the ZeroDivisionError in the detectors) is
  modelled with Except String.
- numpy.mean of an empty list is NaN; NaN-valued results are modelled as
  Option.none.
- The diagnostic summary_stats / feature_importance dictionaries of
  AnomalyReport hold heterogeneous method-specific numbers that no claim
  touches; they are omitted from the record model.
-/

deriving instance DecidableEq for Except

namespace TableauTrust

/-- Python max over two floats, written with an explicit comparison so that
closed instances reduce inside the kernel. -/
def pyMax (a b : ℚ) : ℚ := if a ≤ b then b else a

/-- Python min over two floats, written with an explicit comparison so that
closed instances reduce inside the kernel. -/
def pyMin (a b : ℚ) : ℚ := if a ≤ b then a else b

theorem pyMax_eq (a b : ℚ) : pyMax a b = max a b := by
  unfold pyMax
  split_ifs with h
  · exact (max_eq_right h).symm
  · exact (max_eq_left (le_of_not_le h)).symm

theorem pyMin_eq (a b : ℚ) : pyMin a b = min a b := by
  unfold pyMin
  split_ifs with h
  · exact (min_eq_left h).symm
  · exact (min_eq_right (le_of_not_le h)).symm

/-- A single cell of a pandas column: a numeric value, a string, a parsed
timestamp measured in whole days since an arbitrary epoch, or a missing
value (None / NaN / NaT). -/
inductive Cell
  | num (q : ℚ)
  | str (s : String)
  | date (day : ℤ)
  | missing
deriving DecidableEq, Repr

/-- A pandas column: its name, its dtype string (pandas dtype names such as
int64, float64, object, datetime64) and its cells. -/
structure Column where
  name : String
  dtype : String
  cells : List Cell
deriving DecidableEq, Repr

/-- A pandas DataFrame: an ordered list of columns.  Rows are positionally
aligned, so the row count is the cell count of the first column (pandas
len(df) is 0 for a frame with no columns). -/
structure DataFrame where
  cols : List Column
deriving DecidableEq, Repr

/-- Row count of a DataFrame, mirroring len(df). -/
def DataFrame.nrows (df : DataFrame) : ℕ :=
  (df.cols.head?.map (fun c => c.cells.length)).getD 0

/-- The pandas is_numeric_dtype test as implemented by the repository's
pandas stub (src/pandas/api.types): a dtype string is numeric iff it is
int64 or float64. -/
def is_numeric_dtype (dtype : String) : Bool :=
  dtype == "int64" || dtype == "float64"

/-- Dictionary lookup with a default, mirroring Python dict.get(k, d) over
an association list. -/
def lookupD {α : Type} (l : List (String × α)) (k : String) (d : α) : α :=
  ((l.find? (fun p => p.1 == k)).map (fun p => p.2)).getD d

/-- True for cells that pandas isnull / dropna treat as missing. -/
def Cell.isNa : Cell → Bool
  | Cell.missing => true
  | _ => false

/-- The non-missing numeric values of a column, mirroring series.dropna()
on a numeric column. -/
def seriesDropna (c : Column) : List ℚ :=
  c.cells.filterMap (fun x => match x with | Cell.num q => some q | _ => none)

/-- Model of one record in validation_result.errors / .warnings: the column
the issue was attributed to, and the full string rendering str(e) that the
scorer substring-matches the field name against. -/
structure ValidationIssue where
  column : String
  text : String
deriving DecidableEq, Repr

/-- Model of the optional ValidationResult consumed by the scorer: two lists
of issue records. -/
structure ValidationResult where
  errors : List ValidationIssue
  warnings : List ValidationIssue
deriving DecidableEq, Repr

/-- Model of AnomalyReport (src/utils/anomaly_detection.py line 30), with
the dataclass defaults.  The Any-typed diagnostic dictionaries
(summary_stats, feature_importance) and the timestamp are omitted. -/
structure AnomalyReport where
  method : String := "unknown"
  total_anomalies : ℕ := 0
  anomaly_percentage : ℚ := 0
  anomalies_by_column : List (String × ℕ) := []
  anomaly_indices : List ℕ := []
deriving DecidableEq, Repr

/-- Substring test mirroring the Python expression field_name in str(e). -/
def strContainsSub (hay needle : String) : Bool :=
  (List.range (hay.toList.length + 1)).any
    (fun k => needle.toList.isPrefixOf (hay.toList.drop k))

/-- The attribution test of _calculate_validity_score: an issue belongs to a
field when its column entry equals the field name or the field name occurs
in the string rendering of the issue. -/
def matchesField (field_name : String) (e : ValidationIssue) : Bool :=
  e.column == field_name || strContainsSub e.text field_name

/-- TrustScoreCalculator.WEIGHTS (src/utils/trust_scoring.py line 117). -/
def WEIGHTS : List (String × ℚ) :=
  [("completeness", 0.30), ("validity", 0.30), ("anomaly", 0.25), ("freshness", 0.15)]

/-- TrustScoreCalculator._calculate_completeness_score: 0 for an empty
series, otherwise the non-missing fraction scaled to 0-100 and clamped. -/
def calculate_completeness_score (cells : List Cell) : ℚ :=
  if cells.length = 0 then 0
  else
    let missing : ℕ := (cells.filter Cell.isNa).length
    let completeness : ℚ := (1 - (missing : ℚ) / (cells.length : ℚ)) * 100
    pyMax 0 (pyMin 100 completeness)

/-- TrustScoreCalculator._calculate_validity_score: start at 100, deduct 10
per attributed error capped at 50, deduct 5 per attributed warning capped
at 25, floor at 0; 100 when no validation result is supplied. -/
def calculate_validity_score (field_name : String)
    (validation_result : Option ValidationResult) : ℚ :=
  match validation_result with
  | none => 100
  | some vr =>
    let field_errors := vr.errors.filter (matchesField field_name)
    let field_warnings := vr.warnings.filter (matchesField field_name)
    let score : ℚ :=
      100 - pyMin 50 ((field_errors.length : ℚ) * 10)
          - pyMin 25 ((field_warnings.length : ℚ) * 5)
    pyMax 0 score

/-- TrustScoreCalculator._calculate_anomaly_score: 100 when no report was
supplied or the column is not numeric; otherwise dampen the per-column
anomaly percentage by a factor 2 capped at 50 and subtract from 100,
floored at 0 (an empty series also scores 100). -/
def calculate_anomaly_score (col : Column)
    (anomaly_report : Option AnomalyReport) : ℚ :=
  match anomaly_report with
  | none => 100
  | some rep =>
    if ¬ is_numeric_dtype col.dtype then 100
    else
      let anomaly_count : ℕ := lookupD rep.anomalies_by_column col.name 0
      if 0 < col.cells.length then
        let anomaly_percentage : ℚ :=
          (anomaly_count : ℚ) / (col.cells.length : ℚ) * 100
        pyMax 0 (100 - pyMin 50 (anomaly_percentage * 2))
      else 100

/-- The days_old branch cascade of _calculate_freshness_score, for a parsed
maximum timestamp that is d whole days in the past and a configured
staleness threshold of T days. -/
def freshness_of_days (T : ℕ) (d : ℤ) : ℚ :=
  if d ≤ 1 then 100
  else if d ≤ (T : ℤ) then 100 - (d : ℚ) / (T : ℚ) * 30
  else if d ≤ 30 then 70 - ((d : ℚ) - (T : ℚ)) / 23 * 30
  else pyMax 0 (40 - pyMin 40 (((d : ℚ) - 30) / 30 * 40))

/-- The maximum parsed timestamp of a column, mirroring
pd.to_datetime(series, errors=coerce).max(): unparseable cells coerce to
NaT and are skipped; none models an all-NaT result. -/
def maxDate (cells : List Cell) : Option ℤ :=
  (cells.filterMap (fun x => match x with | Cell.date day => some day | _ => none)).max?

/-- TrustScoreCalculator._calculate_freshness_score: 100 for a column that
is not the designated date column, 50 when the date column has no parseable
timestamp, otherwise the decay of the age in days of the maximum
timestamp. -/
def calculate_freshness_score (T : ℕ) (cells : List Cell)
    (is_date_column : Option String) (now : ℤ) : ℚ :=
  match is_date_column with
  | none => 100
  | some _ =>
    match maxDate cells with
    | none => 50
    | some m => freshness_of_days T (now - m)

/-- Python format spec .1f applied to an exact rational (round half to even
at one decimal), used only inside diagnostic strings. -/
def py_format_1f (q : ℚ) : String :=
  let scaled : ℚ := q * 10
  let f : ℤ := ⌊scaled⌋
  let r : ℚ := scaled - (f : ℚ)
  let n : ℤ := if r < 1/2 then f else if 1/2 < r then f + 1 else if f % 2 = 0 then f else f + 1
  let sign := if n < 0 then "-" else ""
  let m : ℕ := n.natAbs
  sign ++ toString (m / 10) ++ "." ++ toString (m % 10)

/-- TrustScoreCalculator._generate_reasons_and_warnings, with the exact
message strings of the source (including its mangled comparison glyphs). -/
def generate_reasons_and_warnings (completeness validity anomaly freshness : ℚ) :
    List String × List String :=
  let p1 : List String × List String :=
    if completeness ≥ 95 then (["Excellent data completeness (e95%)"], [])
    else if completeness ≥ 80 then (["Good data completeness (e80%)"], [])
    else ([], ["Low completeness (" ++ py_format_1f completeness ++ "%)"])
  let p2 : List String × List String :=
    if validity ≥ 95 then (["Passes all validation checks"], [])
    else if validity ≥ 80 then (["Minor validation warnings only"], [])
    else ([], ["Has validation errors"])
  let p3 : List String × List String :=
    if anomaly ≥ 95 then (["No significant anomalies detected"], [])
    else if anomaly ≥ 80 then (["Few anomalies detected"], [])
    else ([], ["High anomaly rate (" ++ py_format_1f (100 - anomaly) ++ "%)"])
  let p4 : List String × List String :=
    if freshness ≥ 95 then (["Data is very fresh (d1 day old)"], [])
    else if freshness ≥ 70 then (["Data is reasonably fresh"], [])
    else if freshness ≥ 40 then ([], ["Data is somewhat stale (>7 days)"])
    else ([], ["Data is very stale (>30 days)"])
  (p1.1 ++ p2.1 ++ p3.1 ++ p4.1, p1.2 ++ p2.2 ++ p3.2 ++ p4.2)

/-- Model of the TrustScore dataclass (src/utils/trust_scoring.py line 18);
last_validated is a day-granularity timestamp. -/
structure TrustScore where
  field_name : String
  trust_score : ℚ
  completeness_score : ℚ
  validity_score : ℚ
  anomaly_score : ℚ
  freshness_score : ℚ
  sample_size : ℕ
  last_validated : ℤ
  reasons : List String
  warnings : List String
deriving DecidableEq, Repr

/-- TrustScore.get_grade: the letter-grade bands of the source. -/
def TrustScore.get_grade (s : TrustScore) : String :=
  if s.trust_score ≥ 95 then "A+"
  else if s.trust_score ≥ 90 then "A"
  else if s.trust_score ≥ 85 then "B+"
  else if s.trust_score ≥ 80 then "B"
  else if s.trust_score ≥ 75 then "C+"
  else if s.trust_score ≥ 70 then "C"
  else if s.trust_score ≥ 60 then "D"
  else "F"

/-- TrustScore.get_color: the display color bands of the source. -/
def TrustScore.get_color (s : TrustScore) : String :=
  if s.trust_score ≥ 90 then "#10a37f"
  else if s.trust_score ≥ 75 then "#f39c12"
  else if s.trust_score ≥ 60 then "#e67e22"
  else "#e74c3c"

/-- TrustScoreCalculator._calculate_field_trust: the four sub-scores of one
column combined with the WEIGHTS dictionary. -/
def calculate_field_trust (T : ℕ) (col : Column)
    (validation_result : Option ValidationResult)
    (anomaly_report : Option AnomalyReport)
    (date_column : Option String) (now : ℤ) : TrustScore :=
  let completeness_score := calculate_completeness_score col.cells
  let validity_score := calculate_validity_score col.name validation_result
  let anomaly_score := calculate_anomaly_score col anomaly_report
  let freshness_score := calculate_freshness_score T col.cells date_column now
  let trust_score :=
    completeness_score * lookupD WEIGHTS "completeness" 0 +
    validity_score * lookupD WEIGHTS "validity" 0 +
    anomaly_score * lookupD WEIGHTS "anomaly" 0 +
    freshness_score * lookupD WEIGHTS "freshness" 0
  let rw := generate_reasons_and_warnings completeness_score validity_score
    anomaly_score freshness_score
  { field_name := col.name
    trust_score := trust_score
    completeness_score := completeness_score
    validity_score := validity_score
    anomaly_score := anomaly_score
    freshness_score := freshness_score
    sample_size := col.cells.length
    last_validated := now
    reasons := rw.1
    warnings := rw.2 }

/-- Model of the DatasetTrustReport dataclass; overall_trust_score is an
Option because numpy.mean of an empty list is NaN.  The metadata dictionary
is modelled by its four counters. -/
structure DatasetTrustReport where
  dataset_name : String
  overall_trust_score : Option ℚ
  field_scores : List TrustScore
  total_fields : ℕ
  high_trust_fields : ℕ
  medium_trust_fields : ℕ
  low_trust_fields : ℕ
deriving DecidableEq, Repr

/-- numpy.mean over a list of rationals; none models the NaN produced on an
empty list. -/
def np_mean (l : List ℚ) : Option ℚ :=
  if l.isEmpty then none else some (l.sum / (l.length : ℚ))

/-- TrustScoreCalculator.calculate_dataset_trust: score every column, take
the unweighted mean as the overall score, and bucket fields into trust
bands for the metadata. -/
def calculate_dataset_trust (T : ℕ) (df : DataFrame)
    (validation_result : Option ValidationResult)
    (anomaly_report : Option AnomalyReport)
    (date_column : Option String) (dataset_name : String) (now : ℤ) :
    DatasetTrustReport :=
  let field_scores := df.cols.map (fun col =>
    calculate_field_trust T col validation_result anomaly_report
      (if date_column = some col.name then date_column else none) now)
  { dataset_name := dataset_name
    overall_trust_score := np_mean (field_scores.map (fun s => s.trust_score))
    field_scores := field_scores
    total_fields := field_scores.length
    high_trust_fields := (field_scores.filter (fun s => s.trust_score ≥ 90)).length
    medium_trust_fields :=
      (field_scores.filter (fun s => 75 ≤ s.trust_score ∧ s.trust_score < 90)).length
    low_trust_fields := (field_scores.filter (fun s => s.trust_score < 75)).length }

/-- numpy.quantile with the default linear interpolation on the sorted
values, as used by series.quantile. -/
def np_quantile (l : List ℚ) (q : ℚ) : ℚ :=
  let s := l.insertionSort (fun a b => a ≤ b)
  let n := s.length
  let idx : ℚ := q * ((n : ℚ) - 1)
  let lo : ℕ := (⌊idx⌋).toNat
  let hi : ℕ := (⌈idx⌉).toNat
  if lo = hi then s.getD lo 0
  else s.getD lo 0 + (s.getD hi 0 - s.getD lo 0) * (idx - (lo : ℚ))

/-- The numeric columns of a frame, mirroring
df.select_dtypes(include=[np.number]). -/
def numericCols (df : DataFrame) : List Column :=
  df.cols.filter (fun c => is_numeric_dtype c.dtype)

/-- Per-column outlier mask of the IQR detector: a cell is flagged when its
numeric value falls outside [Q1 - k IQR, Q3 + k IQR]; missing cells compare
false, as NaN does in pandas. -/
def iqrColumnMask (multiplier : ℚ) (c : Column) : List Bool :=
  let col_data := seriesDropna c
  let q1 := np_quantile col_data (1/4)
  let q3 := np_quantile col_data (3/4)
  let iqr := q3 - q1
  let lower_bound := q1 - multiplier * iqr
  let upper_bound := q3 + multiplier * iqr
  c.cells.map (fun x => match x with
    | Cell.num v => decide (v < lower_bound ∨ upper_bound < v)
    | _ => false)

/-- IQRAnomalyDetector.detect (src/utils/anomaly_detection.py line 71).
Columns whose dropna is empty are skipped; per-column counts are recorded
only when positive; a row is anomalous when any flagged column flags it.
The final anomaly_percentage divides by len(df) with no zero guard, which
in Python raises ZeroDivisionError when the frame has numeric columns but
no rows; that path is the Except.error case. -/
def iqr_detect (multiplier : ℚ) (df : DataFrame) : Except String AnomalyReport :=
  let numeric_cols := numericCols df
  if numeric_cols.isEmpty then .ok { method := "IQR" }
  else
    let colResults : List (String × ℕ × List Bool) :=
      numeric_cols.filterMap (fun c =>
        if (seriesDropna c).isEmpty then none
        else
          let mask := iqrColumnMask multiplier c
          let cnt := mask.count true
          if cnt = 0 then none else some (c.name, cnt, mask))
    let rowFlag : ℕ → Bool := fun i =>
      colResults.any (fun t => t.2.2.getD i false)
    let anomaly_indices := (List.range df.nrows).filter rowFlag
    let total := anomaly_indices.length
    if df.nrows = 0 then .error "ZeroDivisionError"
    else .ok
      { method := "IQR"
        total_anomalies := total
        anomaly_percentage := (total : ℚ) / (df.nrows : ℚ) * 100
        anomalies_by_column := colResults.map (fun t => (t.1, t.2.1))
        anomaly_indices := anomaly_indices }

/-- The per-row vote of AnomalyDetectorEnsemble._combine_reports.  The
boolean Series operations of the source are pointwise over positionally
aligned masks, and the mask a report contributes flags exactly the row
positions in its anomaly_indices; an unknown voting string falls back to
majority.  Majority compares the vote count against len(masks) / 2 with
Python true division, so a tie at exactly half is not flagged. -/
def combineRowFlag (voting : String) (reports : List (String × AnomalyReport))
    (i : ℕ) : Bool :=
  let votes : ℕ := reports.countP (fun r => decide (i ∈ r.2.anomaly_indices))
  if voting = "majority" then
    decide ((votes : ℚ) > (reports.length : ℚ) / 2)
  else if voting = "unanimous" then
    reports.all (fun r => decide (i ∈ r.2.anomaly_indices))
  else if voting = "any" then
    reports.any (fun r => decide (i ∈ r.2.anomaly_indices))
  else
    decide ((votes : ℚ) > (reports.length : ℚ) / 2)

/-- The combined per-column counts: for every column named by some
detector, the truncated mean int(np.mean(counts)) of the per-detector
counts for that column. -/
def combineByColumn (reports : List (String × AnomalyReport)) : List (String × ℕ) :=
  let all_cols := ((reports.map (fun r => r.2.anomalies_by_column.map Prod.fst)).flatten).dedup
  all_cols.map (fun c =>
    (c, (reports.map (fun r => lookupD r.2.anomalies_by_column c 0)).sum / reports.length))

/-- AnomalyDetectorEnsemble._combine_reports: vote row flags, then rebuild
an AnomalyReport.  Its anomaly_percentage divides by len(df) with no zero
guard, so a zero-row frame raises ZeroDivisionError (the voting that
precedes the division is pure, so hoisting the failing case first leaves
the call's value unchanged). -/
def combine_reports (voting : String) (df : DataFrame)
    (reports : List (String × AnomalyReport)) : Except String AnomalyReport :=
  if df.nrows = 0 then .error "ZeroDivisionError"
  else
    let anomaly_indices := (List.range df.nrows).filter (combineRowFlag voting reports)
    .ok
      { method := "Ensemble (" ++ voting ++ " voting)"
        total_anomalies := anomaly_indices.length
        anomaly_percentage := (anomaly_indices.length : ℚ) / (df.nrows : ℚ) * 100
        anomalies_by_column := combineByColumn reports
        anomaly_indices := anomaly_indices }

/-- AnomalyDetectorEnsemble.detect: an empty detector list returns the
default report tagged Ensemble (empty) immediately; otherwise every
detector runs (any raise propagates) and the reports are combined. -/
def ensemble_detect (voting : String)
    (detectors : List (String × (DataFrame → Except String AnomalyReport)))
    (df : DataFrame) : Except String AnomalyReport :=
  if detectors.isEmpty then .ok { method := "Ensemble (empty)" }
  else do
    let reports ← detectors.mapM (fun nd => (nd.2 df).map (fun r => (nd.1, r)))
    combine_reports voting df reports

/-- The Tableau-ready record shape that DatasetTrustReport.to_dataframe
emits per field; a cell value is a string, rational, natural count or a
timestamp. -/
inductive CellV
  | s (v : String)
  | q (v : ℚ)
  | n (v : ℕ)
  | t (v : ℤ)
deriving DecidableEq, Repr

/-- Python round(x, 2): round half to even at two decimals, exact over the
rational model. -/
def py_round_2 (q : ℚ) : ℚ :=
  let scaled : ℚ := q * 100
  let f : ℤ := ⌊scaled⌋
  let r : ℚ := scaled - (f : ℚ)
  let n : ℤ := if r < 1/2 then f else if 1/2 < r then f + 1 else if f % 2 = 0 then f else f + 1
  (n : ℚ) / 100

/-- The exact export column set of the tabular compatibility surface. -/
def exportColumns : List String :=
  ["Dataset", "Field_Name", "Trust_Score", "Grade", "Color", "Completeness",
   "Validity", "Anomaly_Free", "Freshness", "Sample_Size", "Last_Validated",
   "Warnings", "Reasons"]

/-- The single export record built for one field score inside
DatasetTrustReport.to_dataframe, in the construction order of the source. -/
def exportRecord (dataset_name : String) (s : TrustScore) : List (String × CellV) :=
  [("Dataset", CellV.s dataset_name),
   ("Field_Name", CellV.s s.field_name),
   ("Trust_Score", CellV.q (py_round_2 s.trust_score)),
   ("Grade", CellV.s s.get_grade),
   ("Color", CellV.s s.get_color),
   ("Completeness", CellV.q (py_round_2 s.completeness_score)),
   ("Validity", CellV.q (py_round_2 s.validity_score)),
   ("Anomaly_Free", CellV.q (py_round_2 s.anomaly_score)),
   ("Freshness", CellV.q (py_round_2 s.freshness_score)),
   ("Sample_Size", CellV.n s.sample_size),
   ("Last_Validated", CellV.t s.last_validated),
   ("Warnings", CellV.s (if s.warnings.isEmpty then "None"
      else String.intercalate "; " s.warnings)),
   ("Reasons", CellV.s (if s.reasons.isEmpty then "Good quality"
      else String.intercalate "; " s.reasons))]

/-- DatasetTrustReport.to_dataframe: one flat record per field score. -/
def to_dataframe (rep : DatasetTrustReport) : List (List (String × CellV)) :=
  rep.field_scores.map (exportRecord rep.dataset_name)

/-- One persisted row of the trust_scores SQLite table; the reasons and
warnings lists are stored JSON-serialized, modelled as the lists
themselves, and timestamps are the CURRENT_TIMESTAMP write times. -/
structure ScoreRow where
  id : ℕ
  dataset_name : String
  field_name : String
  trust_score : ℚ
  completeness_score : ℚ
  validity_score : ℚ
  anomaly_score : ℚ
  freshness_score : ℚ
  grade : String
  color : String
  sample_size : ℕ
  timestamp : ℕ
  reasons : List String
  warnings : List String
deriving DecidableEq, Repr

/-- The row written for one field score by TrustScoreStore.save_report. -/
def scoreRow (dataset_name : String) (ts : ℕ) (rowid : ℕ) (s : TrustScore) :
    ScoreRow :=
  { id := rowid
    dataset_name := dataset_name
    field_name := s.field_name
    trust_score := s.trust_score
    completeness_score := s.completeness_score
    validity_score := s.validity_score
    anomaly_score := s.anomaly_score
    freshness_score := s.freshness_score
    grade := s.get_grade
    color := s.get_color
    sample_size := s.sample_size
    timestamp := ts
    reasons := s.reasons
    warnings := s.warnings }

/-- The insert loop of save_report: one row per field score, ids assigned
by the AUTOINCREMENT counter. -/
def insertRows (dataset_name : String) (ts : ℕ) (nextId : ℕ) :
    List TrustScore → List ScoreRow
  | [] => []
  | s :: rest => scoreRow dataset_name ts nextId s :: insertRows dataset_name ts (nextId + 1) rest

/-- TrustScoreStore.save_report: append one row per field score of the
report to the store, all carrying the same write timestamp. -/
def save_report (store : List ScoreRow) (ts : ℕ) (rep : DatasetTrustReport) :
    List ScoreRow :=
  store ++ insertRows rep.dataset_name ts (store.length + 1) rep.field_scores

/-- The correlated subquery of get_latest_scores: the maximum timestamp
among the rows of one dataset and field (0 when there are none, a case the
outer join never exposes). -/
def maxTimestamp (store : List ScoreRow) (ds f : String) : ℕ :=
  ((store.filter (fun r => r.dataset_name == ds && r.field_name == f)).map
    (fun r => r.timestamp)).foldr max 0

/-- TrustScoreStore.get_latest_scores: the rows of the dataset whose write
timestamp equals the per-field maximum timestamp. -/
def get_latest_scores (store : List ScoreRow) (ds : String) : List ScoreRow :=
  store.filter (fun r =>
    r.dataset_name == ds && r.timestamp == maxTimestamp store ds r.field_name)

/-! Bound lemmas for the four sub-scores. -/

theorem calculate_completeness_score_bounds (cells : List Cell) :
    0 ≤ calculate_completeness_score cells ∧ calculate_completeness_score cells ≤ 100 := by
  unfold calculate_completeness_score
  split_ifs with h
  · norm_num
  · rw [pyMax_eq, pyMin_eq]
    exact ⟨le_max_left 0 _, max_le (by norm_num) (min_le_left _ _)⟩

theorem calculate_validity_score_bounds (f : String) (vr : Option ValidationResult) :
    0 ≤ calculate_validity_score f vr ∧ calculate_validity_score f vr ≤ 100 := by
  unfold calculate_validity_score
  match vr with
  | none => norm_num
  | some v =>
    simp only [pyMax_eq, pyMin_eq]
    refine ⟨le_max_left 0 _, max_le (by norm_num) ?_⟩
    have h1 : (0:ℚ) ≤ min 50 (((v.errors.filter (matchesField f)).length : ℚ) * 10) :=
      le_min (by norm_num) (by positivity)
    have h2 : (0:ℚ) ≤ min 25 (((v.warnings.filter (matchesField f)).length : ℚ) * 5) :=
      le_min (by norm_num) (by positivity)
    linarith

theorem dampened_clamp_bounds (x : ℚ) (hx : 0 ≤ x) :
    50 ≤ pyMax 0 (100 - pyMin 50 x) ∧ pyMax 0 (100 - pyMin 50 x) ≤ 100 := by
  rw [pyMax_eq, pyMin_eq]
  have hm0 : (0:ℚ) ≤ min 50 x := le_min (by norm_num) hx
  have hm50 : min 50 x ≤ 50 := min_le_left _ _
  exact ⟨le_max_of_le_right (by linarith), max_le (by norm_num) (by linarith)⟩

theorem calculate_anomaly_score_bounds (col : Column) (rep : Option AnomalyReport) :
    50 ≤ calculate_anomaly_score col rep ∧ calculate_anomaly_score col rep ≤ 100 := by
  unfold calculate_anomaly_score
  match rep with
  | none => norm_num
  | some r =>
    dsimp only
    split_ifs with h1 h2 <;>
      first
        | (apply dampened_clamp_bounds; positivity)
        | norm_num

theorem freshness_of_days_bounds (T : ℕ) (d : ℤ) :
    0 ≤ freshness_of_days T d ∧ freshness_of_days T d ≤ 100 := by
  unfold freshness_of_days
  split_ifs with h1 h2 h3
  · norm_num
  · have hT0 : 0 < T := by omega
    have hd2 : (2:ℤ) ≤ d := by omega
    have hTq : (0:ℚ) < (T:ℚ) := by exact_mod_cast hT0
    have hdq : (0:ℚ) ≤ (d:ℚ) := by
      have : (0:ℤ) ≤ d := by omega
      exact_mod_cast this
    have hr1 : (d:ℚ) / (T:ℚ) ≤ 1 := by
      rw [div_le_one hTq]
      exact_mod_cast h2
    have hr0 : 0 ≤ (d:ℚ) / (T:ℚ) := div_nonneg hdq (le_of_lt hTq)
    constructor <;> nlinarith
  · have hlt : (T:ℤ) < d := lt_of_not_le h2
    have he1 : (1:ℚ) ≤ (d:ℚ) - (T:ℚ) := by
      have hc : ((T:ℤ):ℚ) + 1 ≤ (d:ℚ) := by exact_mod_cast hlt
      push_cast at hc ⊢
      linarith
    have he2 : (d:ℚ) - (T:ℚ) ≤ 30 := by
      have hd30 : (d:ℚ) ≤ 30 := by exact_mod_cast h3
      have hTq : (0:ℚ) ≤ (T:ℚ) := by positivity
      linarith
    constructor <;> linarith
  · have h31 : (31:ℤ) ≤ d := by omega
    rw [pyMax_eq, pyMin_eq]
    have hdq : (31:ℚ) ≤ (d:ℚ) := by exact_mod_cast h31
    have hx : (0:ℚ) ≤ ((d:ℚ) - 30) / 30 * 40 :=
      mul_nonneg (div_nonneg (by linarith) (by norm_num)) (by norm_num)
    have hm : (0:ℚ) ≤ min 40 (((d:ℚ) - 30) / 30 * 40) := le_min (by norm_num) hx
    exact ⟨le_max_left 0 _, max_le (by norm_num) (by linarith)⟩

theorem calculate_freshness_score_bounds (T : ℕ) (cells : List Cell)
    (dc : Option String) (now : ℤ) :
    0 ≤ calculate_freshness_score T cells dc now ∧
      calculate_freshness_score T cells dc now ≤ 100 := by
  unfold calculate_freshness_score
  match dc with
  | none => norm_num
  | some c =>
    match maxDate cells with
    | none => norm_num
    | some m => exact freshness_of_days_bounds T (now - m)

theorem lookupD_WEIGHTS_completeness : lookupD WEIGHTS "completeness" 0 = 0.30 := by rfl

theorem lookupD_WEIGHTS_validity : lookupD WEIGHTS "validity" 0 = 0.30 := by rfl

theorem lookupD_WEIGHTS_anomaly : lookupD WEIGHTS "anomaly" 0 = 0.25 := by rfl

theorem lookupD_WEIGHTS_freshness : lookupD WEIGHTS "freshness" 0 = 0.15 := by rfl

/-- Convexity data of one computed field score, stated over the score
constructor so all claims about computed scores can reuse it. -/
theorem calculate_field_trust_props (T : ℕ) (col : Column)
    (vr : Option ValidationResult) (ar : Option AnomalyReport)
    (dc : Option String) (now : ℤ) :
    (calculate_field_trust T col vr ar dc now).trust_score =
        0.30 * (calculate_field_trust T col vr ar dc now).completeness_score
      + 0.30 * (calculate_field_trust T col vr ar dc now).validity_score
      + 0.25 * (calculate_field_trust T col vr ar dc now).anomaly_score
      + 0.15 * (calculate_field_trust T col vr ar dc now).freshness_score
    ∧ 0 ≤ (calculate_field_trust T col vr ar dc now).trust_score
    ∧ (calculate_field_trust T col vr ar dc now).trust_score ≤ 100 := by
  have hc := calculate_completeness_score_bounds col.cells
  have hv := calculate_validity_score_bounds col.name vr
  have ha := calculate_anomaly_score_bounds col ar
  have hf := calculate_freshness_score_bounds T col.cells dc now
  unfold calculate_field_trust
  dsimp only
  rw [lookupD_WEIGHTS_completeness, lookupD_WEIGHTS_validity, lookupD_WEIGHTS_anomaly,
    lookupD_WEIGHTS_freshness]
  refine ⟨by ring, ?_, ?_⟩
  · norm_num
    nlinarith [hc.1, hv.1, ha.1, hf.1]
  · norm_num
    nlinarith [hc.2, hv.2, ha.2, hf.2, ha.1]

/-- C1: for every dataset and every field scored by the Trust Score
Calculator, trust_score equals the fixed convex combination 0.30
completeness + 0.30 validity + 0.25 anomaly-freedom + 0.15 freshness, lies
in the interval 0 to 100, and the four weights sum to 1. -/
theorem trust_score_convex_combination
    (T : ℕ) (df : DataFrame) (validation_result : Option ValidationResult)
    (anomaly_report : Option AnomalyReport) (date_column : Option String)
    (dataset_name : String) (now : ℤ) (s : TrustScore)
    (hs : s ∈ (calculate_dataset_trust T df validation_result anomaly_report
            date_column dataset_name now).field_scores) :
    s.trust_score = 0.30 * s.completeness_score + 0.30 * s.validity_score
        + 0.25 * s.anomaly_score + 0.15 * s.freshness_score
    ∧ 0 ≤ s.trust_score ∧ s.trust_score ≤ 100
    ∧ (WEIGHTS.map Prod.snd).sum = 1 := by
  have hs2 : s ∈ df.cols.map (fun col =>
      calculate_field_trust T col validation_result anomaly_report
        (if date_column = some col.name then date_column else none) now) := hs
  obtain ⟨col, hcol, heq⟩ := List.mem_map.mp hs2
  obtain ⟨h1, h2, h3⟩ := calculate_field_trust_props T col validation_result anomaly_report
      (if date_column = some col.name then date_column else none) now
  rw [heq] at h1 h2 h3
  exact ⟨h1, h2, h3, by norm_num [WEIGHTS]⟩

/-- A concrete clean integer column used by witnesses. -/
def colW : Column := ⟨"order_id", "int64", [Cell.num 1, Cell.num 2]⟩

/-- A concrete one-column frame used by witnesses. -/
def dfW : DataFrame := ⟨[colW]⟩

/-- The field score the calculator produces for colW with no optional
inputs. -/
def scoreW : TrustScore := calculate_field_trust 7 colW none none none 0

theorem trust_score_convex_combination_witness :
    scoreW.trust_score = 0.30 * scoreW.completeness_score + 0.30 * scoreW.validity_score
        + 0.25 * scoreW.anomaly_score + 0.15 * scoreW.freshness_score
    ∧ 0 ≤ scoreW.trust_score ∧ scoreW.trust_score ≤ 100
    ∧ (WEIGHTS.map Prod.snd).sum = 1 :=
  trust_score_convex_combination 7 dfW none none none "dataset" 0 scoreW
    (by exact List.mem_singleton.mpr rfl)

/-! Region equations of the freshness decay at the default 7-day staleness
threshold. -/

theorem freshness_eq_of_le_one {d : ℤ} (h : d ≤ 1) : freshness_of_days 7 d = 100 := by
  unfold freshness_of_days
  rw [if_pos h]

theorem freshness_eq_threshold_band {d : ℤ} (h1 : 2 ≤ d) (h2 : d ≤ 7) :
    freshness_of_days 7 d = 100 - (d : ℚ) / 7 * 30 := by
  unfold freshness_of_days
  rw [if_neg (by omega), if_pos (by omega : d ≤ ((7:ℕ) : ℤ))]
  push_cast
  ring

theorem freshness_eq_mid_band {d : ℤ} (h1 : 8 ≤ d) (h2 : d ≤ 30) :
    freshness_of_days 7 d = 70 - ((d : ℚ) - 7) / 23 * 30 := by
  unfold freshness_of_days
  rw [if_neg (by omega), if_neg (by omega : ¬ d ≤ ((7:ℕ) : ℤ)), if_pos h2]
  push_cast
  ring

theorem freshness_eq_tail_band {d : ℤ} (h1 : 31 ≤ d) (h2 : d ≤ 60) :
    freshness_of_days 7 d = 40 - ((d : ℚ) - 30) / 30 * 40 := by
  unfold freshness_of_days
  rw [if_neg (by omega), if_neg (by omega : ¬ d ≤ ((7:ℕ) : ℤ)), if_neg (by omega)]
  rw [pyMin_eq, pyMax_eq]
  have hd : (d : ℚ) ≤ 60 := by exact_mod_cast h2
  have hd31 : (31 : ℚ) ≤ (d : ℚ) := by exact_mod_cast h1
  have hx40 : ((d : ℚ) - 30) / 30 * 40 ≤ 40 := by linarith
  rw [min_eq_right hx40, max_eq_right (by linarith)]

theorem freshness_eq_zero_tail {d : ℤ} (h : 60 ≤ d) : freshness_of_days 7 d = 0 := by
  unfold freshness_of_days
  rw [if_neg (by omega), if_neg (by omega : ¬ d ≤ ((7:ℕ) : ℤ)), if_neg (by omega)]
  rw [pyMin_eq, pyMax_eq]
  have hd : (60 : ℚ) ≤ (d : ℚ) := by exact_mod_cast h
  have hx : (40 : ℚ) ≤ ((d : ℚ) - 30) / 30 * 40 := by linarith
  rw [min_eq_left hx]
  norm_num

theorem freshness_strict_step (d : ℤ) (h1 : 1 ≤ d) (h2 : d ≤ 59) :
    freshness_of_days 7 (d + 1) < freshness_of_days 7 d := by
  rcases lt_or_ge d 2 with hc | hc
  · have hd1 : d = 1 := by omega
    subst hd1
    rw [freshness_eq_threshold_band (d := 1 + 1) (by norm_num) (by norm_num),
      freshness_eq_of_le_one (le_refl 1)]
    norm_num
  · rcases lt_or_ge d 7 with hc2 | hc2
    · rw [freshness_eq_threshold_band (d := d + 1) (by omega) (by omega),
        freshness_eq_threshold_band hc (by omega)]
      push_cast
      linarith
    · rcases lt_or_ge d 8 with hc3 | hc3
      · have hd7 : d = 7 := by omega
        subst hd7
        rw [freshness_eq_mid_band (d := 7 + 1) (by norm_num) (by norm_num),
          freshness_eq_threshold_band (d := 7) (by norm_num) (by norm_num)]
        norm_num
      · rcases lt_or_ge d 30 with hc4 | hc4
        · rw [freshness_eq_mid_band (d := d + 1) (by omega) (by omega),
            freshness_eq_mid_band hc3 (by omega)]
          push_cast
          linarith
        · rcases lt_or_ge d 31 with hc5 | hc5
          · have hd30 : d = 30 := by omega
            subst hd30
            rw [freshness_eq_tail_band (d := 30 + 1) (by norm_num) (by norm_num),
              freshness_eq_mid_band (d := 30) (by norm_num) (by norm_num)]
            norm_num
          · rw [freshness_eq_tail_band (d := d + 1) (by omega) (by omega),
              freshness_eq_tail_band hc5 (by omega)]
            push_cast
            linarith

theorem freshness_weak_step (d : ℤ) (h : 0 ≤ d) :
    freshness_of_days 7 (d + 1) ≤ freshness_of_days 7 d := by
  rcases lt_or_ge d 1 with hc | hc
  · have hd0 : d = 0 := by omega
    subst hd0
    have e1 : freshness_of_days 7 (0 + 1) = 100 := freshness_eq_of_le_one (by norm_num)
    have e0 : freshness_of_days 7 0 = 100 := freshness_eq_of_le_one (by norm_num)
    rw [e1, e0]
  · rcases lt_or_ge d 60 with hc2 | hc2
    · exact le_of_lt (freshness_strict_step d (by omega) (by omega))
    · rw [freshness_eq_zero_tail (d := d + 1) (by omega), freshness_eq_zero_tail hc2]

/-- C6 counterexample: the freshness score is not strictly decreasing as
the maximum timestamp moves into the past (it is 100 both now and one day
old), and it has not reached 0 at 31 days of staleness. -/
theorem freshness_claim_counterexample :
    freshness_of_days 7 0 = 100 ∧ freshness_of_days 7 1 = 100 ∧
      freshness_of_days 7 31 = 116 / 3 ∧ (116 / 3 : ℚ) ≠ 0 := by
  refine ⟨freshness_eq_of_le_one (by norm_num), freshness_eq_of_le_one (by norm_num), ?_, by norm_num⟩
  rw [freshness_eq_tail_band (by norm_num) (by norm_num)]
  norm_num

/-- C6 (amended): at the default 7-day threshold the freshness score is 100
for the designated column whose maximum timestamp is at most 1 day old
(including exactly now), weakly decreases as the maximum timestamp moves
further into the past, strictly decreases between 1 and 60 days of
staleness, equals 0 from 60 days onward, and follows the specified
piecewise-linear decay (100 to 70 across the 7-day threshold, 70 to 40
across the next 23 days, then 40 toward 0 floored at 0); for the designated
freshness column with a parseable maximum timestamp the score is exactly
this decay of its age in days. -/
theorem freshness_decay_amended :
    freshness_of_days 7 0 = 100
    ∧ (∀ d : ℤ, d ≤ 1 → freshness_of_days 7 d = 100)
    ∧ (∀ d : ℤ, 0 ≤ d → freshness_of_days 7 (d + 1) ≤ freshness_of_days 7 d)
    ∧ (∀ d : ℤ, 1 ≤ d → d ≤ 59 → freshness_of_days 7 (d + 1) < freshness_of_days 7 d)
    ∧ (∀ d : ℤ, 60 ≤ d → freshness_of_days 7 d = 0)
    ∧ (∀ d : ℤ, 2 ≤ d → d ≤ 7 → freshness_of_days 7 d = 100 - (d : ℚ) / 7 * 30)
    ∧ (∀ d : ℤ, 8 ≤ d → d ≤ 30 → freshness_of_days 7 d = 70 - ((d : ℚ) - 7) / 23 * 30)
    ∧ (∀ d : ℤ, 31 ≤ d → d ≤ 60 → freshness_of_days 7 d = 40 - ((d : ℚ) - 30) / 30 * 40)
    ∧ (∀ (c : String) (cells : List Cell) (now m : ℤ), maxDate cells = some m →
        calculate_freshness_score 7 cells (some c) now = freshness_of_days 7 (now - m)) := by
  refine ⟨freshness_eq_of_le_one (by norm_num),
    fun d h => freshness_eq_of_le_one h,
    freshness_weak_step,
    freshness_strict_step,
    fun d h => freshness_eq_zero_tail h,
    fun d h1 h2 => freshness_eq_threshold_band h1 h2,
    fun d h1 h2 => freshness_eq_mid_band h1 h2,
    fun d h1 h2 => freshness_eq_tail_band h1 h2,
    fun c cells now m hm => ?_⟩
  unfold calculate_freshness_score
  rw [hm]

theorem freshness_decay_amended_witness :
    freshness_of_days 7 31 < freshness_of_days 7 30 :=
  freshness_decay_amended.2.2.2.1 30 (by norm_num) (by norm_num)

/-- C7: the anomaly-freedom sub-score equals 100 when the column is
non-numeric or no anomaly finding was supplied; otherwise, for a nonempty
column, it equals 100 minus min of 50 and twice the anomaly percentage of
the column, floored at 0; consequently anomaly evidence alone never drives
the sub-score below 50. -/
theorem anomaly_score_spec (col : Column) (rep : Option AnomalyReport) :
    ((rep = none ∨ is_numeric_dtype col.dtype = false) →
        calculate_anomaly_score col rep = 100)
    ∧ (∀ r : AnomalyReport, rep = some r → is_numeric_dtype col.dtype = true →
        0 < col.cells.length →
        calculate_anomaly_score col rep =
          max 0 (100 - min 50
            (2 * (((lookupD r.anomalies_by_column col.name 0 : ℕ) : ℚ) /
              ((col.cells.length : ℕ) : ℚ) * 100))))
    ∧ 50 ≤ calculate_anomaly_score col rep := by
  refine ⟨?_, ?_, (calculate_anomaly_score_bounds col rep).1⟩
  · rintro (rfl | h)
    · rfl
    · match rep with
      | none => rfl
      | some r =>
        unfold calculate_anomaly_score
        dsimp only
        rw [if_pos (by simp [h])]
  · rintro r rfl hnum hlen
    unfold calculate_anomaly_score
    dsimp only
    rw [if_neg (by simp [hnum]), if_pos hlen, pyMax_eq, pyMin_eq, mul_comm]

/-- A concrete anomaly report naming the witness column. -/
def repAW : AnomalyReport :=
  { method := "IQR", total_anomalies := 1, anomaly_percentage := 50,
    anomalies_by_column := [("order_id", 1)], anomaly_indices := [1] }

theorem anomaly_score_spec_witness :
    calculate_anomaly_score colW (some repAW) =
      max 0 (100 - min 50
        (2 * (((lookupD repAW.anomalies_by_column colW.name 0 : ℕ) : ℚ) /
          ((colW.cells.length : ℕ) : ℚ) * 100))) :=
  (anomaly_score_spec colW (some repAW)).2.1 repAW rfl (by decide) (by decide)

/-- C8: the validity sub-score starts at 100, is reduced by 10 points per
validation error attributed to the column capped at 50 points, by 5 points
per attributed warning capped at 25 points, floors at 0, and is exactly
100 whenever no validation result is supplied. -/
theorem validity_score_spec (field_name : String) (vr : Option ValidationResult) :
    calculate_validity_score field_name none = 100
    ∧ (∀ v : ValidationResult, vr = some v →
        calculate_validity_score field_name vr =
          max 0 (100 - min 50 (10 * ((v.errors.filter (matchesField field_name)).length : ℚ))
                     - min 25 (5 * ((v.warnings.filter (matchesField field_name)).length : ℚ))))
    ∧ 0 ≤ calculate_validity_score field_name vr
    ∧ calculate_validity_score field_name vr ≤ 100 := by
  refine ⟨rfl, ?_, (calculate_validity_score_bounds field_name vr).1,
    (calculate_validity_score_bounds field_name vr).2⟩
  rintro v rfl
  unfold calculate_validity_score
  dsimp only
  rw [pyMax_eq, pyMin_eq, pyMin_eq, mul_comm (10 : ℚ), mul_comm (5 : ℚ)]

/-- A concrete validation result with one error attributed to the witness
column. -/
def vrW : ValidationResult :=
  { errors := [⟨"order_id", "missing values in order_id"⟩]
    warnings := [] }

theorem validity_score_spec_witness :
    calculate_validity_score "order_id" (some vrW) =
      max 0 (100 - min 50 (10 * (((vrW.errors.filter (matchesField "order_id")).length : ℕ) : ℚ))
                 - min 25 (5 * (((vrW.warnings.filter (matchesField "order_id")).length : ℕ) : ℚ))) :=
  (validity_score_spec "order_id" (some vrW)).2.1 vrW rfl

theorem export_keys (ds : String) (l : List TrustScore) :
    (l.map (exportRecord ds)).map (fun r => r.map Prod.fst) =
      List.replicate l.length exportColumns := by
  induction l with
  | nil => rfl
  | cons s t ih => simp [exportRecord, exportColumns, List.replicate_succ, ih]

theorem export_grade_cell (ds : String) (s : TrustScore) :
    lookupD (exportRecord ds s) "Grade" (CellV.s "") = CellV.s s.get_grade := rfl

/-- C10: the tabular export emits exactly one row per field, each row
carrying exactly the column names Dataset, Field_Name, Trust_Score, Grade,
Color, Completeness, Validity, Anomaly_Free, Freshness, Sample_Size,
Last_Validated, Warnings, Reasons in that order, the Grade cell holds the
derived letter grade, and the grade is given by the bands A+ from 95, A
from 90, B+ from 85, B from 80, C+ from 75, C from 70, D from 60 and F
below. -/
theorem export_shape_and_grades (rep : DatasetTrustReport) :
    (to_dataframe rep).length = rep.field_scores.length
    ∧ (to_dataframe rep).map (fun r => r.map Prod.fst) =
        List.replicate rep.field_scores.length exportColumns
    ∧ (to_dataframe rep).map (fun r => lookupD r "Grade" (CellV.s "")) =
        rep.field_scores.map (fun s => CellV.s s.get_grade)
    ∧ (∀ s : TrustScore,
        (95 ≤ s.trust_score → s.get_grade = "A+")
        ∧ (90 ≤ s.trust_score → s.trust_score < 95 → s.get_grade = "A")
        ∧ (85 ≤ s.trust_score → s.trust_score < 90 → s.get_grade = "B+")
        ∧ (80 ≤ s.trust_score → s.trust_score < 85 → s.get_grade = "B")
        ∧ (75 ≤ s.trust_score → s.trust_score < 80 → s.get_grade = "C+")
        ∧ (70 ≤ s.trust_score → s.trust_score < 75 → s.get_grade = "C")
        ∧ (60 ≤ s.trust_score → s.trust_score < 70 → s.get_grade = "D")
        ∧ (s.trust_score < 60 → s.get_grade = "F")) := by
  refine ⟨by simp [to_dataframe], export_keys rep.dataset_name rep.field_scores, ?_, ?_⟩
  · unfold to_dataframe
    rw [List.map_map]
    have hfun : (fun r => lookupD r "Grade" (CellV.s "")) ∘ exportRecord rep.dataset_name =
        fun s => CellV.s s.get_grade := funext (fun s => export_grade_cell rep.dataset_name s)
    rw [hfun]
  · intro s
    unfold TrustScore.get_grade
    refine ⟨fun h => by rw [if_pos h], fun h1 h2 => ?_, fun h1 h2 => ?_, fun h1 h2 => ?_,
      fun h1 h2 => ?_, fun h1 h2 => ?_, fun h1 h2 => ?_, fun h => ?_⟩
    · rw [if_neg (by linarith), if_pos h1]
    · rw [if_neg (by linarith), if_neg (by linarith), if_pos h1]
    · rw [if_neg (by linarith), if_neg (by linarith), if_neg (by linarith), if_pos h1]
    · rw [if_neg (by linarith), if_neg (by linarith), if_neg (by linarith),
        if_neg (by linarith), if_pos h1]
    · rw [if_neg (by linarith), if_neg (by linarith), if_neg (by linarith),
        if_neg (by linarith), if_neg (by linarith), if_pos h1]
    · rw [if_neg (by linarith), if_neg (by linarith), if_neg (by linarith),
        if_neg (by linarith), if_neg (by linarith), if_neg (by linarith), if_pos h1]
    · rw [if_neg (by linarith), if_neg (by linarith), if_neg (by linarith),
        if_neg (by linarith), if_neg (by linarith), if_neg (by linarith),
        if_neg (by linarith)]

/-- A concrete high-trust field score used by the export witness. -/
def scoreGW : TrustScore :=
  { field_name := "order_id", trust_score := 96, completeness_score := 100,
    validity_score := 100, anomaly_score := 100, freshness_score := 80,
    sample_size := 2, last_validated := 0, reasons := [], warnings := [] }

/-- A concrete one-field report used by the export witness. -/
def reportGW : DatasetTrustReport :=
  { dataset_name := "ds", overall_trust_score := some 96, field_scores := [scoreGW],
    total_fields := 1, high_trust_fields := 1, medium_trust_fields := 0,
    low_trust_fields := 0 }

theorem export_shape_and_grades_witness : scoreGW.get_grade = "A+" :=
  ((export_shape_and_grades reportGW).2.2.2 scoreGW).1 (by norm_num [scoreGW])

/-- The configured default IQR multiplier OUTLIER_IQR_MULTIPLIER
(src/config/settings.py line 92). -/
def OUTLIER_IQR_MULTIPLIER : ℚ := 1.5

/-- A concrete nonempty frame handed to the empty-detector ensemble. -/
def dfEnsW : DataFrame := ⟨[⟨"value", "int64", [Cell.num 10, Cell.num 12]⟩]⟩

/-- C2 counterexample: calling the Ensemble Voter with an empty detector
set on a concrete dataset is not rejected before computation and is not
fatal to the call: it returns a normal empty AnomalyReport tagged
Ensemble (empty). -/
theorem ensemble_empty_counterexample :
    ensemble_detect "majority" [] dfEnsW =
      Except.ok { method := "Ensemble (empty)", total_anomalies := 0,
                  anomaly_percentage := 0, anomalies_by_column := [],
                  anomaly_indices := [] } := by
  decide

/-- C2 (amended): for every dataset and voting rule, the Ensemble Voter
called with an empty detector set is not rejected: it returns immediately,
before running any detector, a normal AnomalyReport whose method is
Ensemble (empty), with zero anomalies and empty maps, and no error is
raised. -/
theorem ensemble_empty_detectors (voting : String) (df : DataFrame) :
    ensemble_detect voting [] df =
      Except.ok { method := "Ensemble (empty)", total_anomalies := 0,
                  anomaly_percentage := 0, anomalies_by_column := [],
                  anomaly_indices := [] } := rfl

/-- A frame with one declared-numeric column and zero rows. -/
def dfZeroRowsNum : DataFrame := ⟨[⟨"a", "float64", []⟩]⟩

/-- A frame with rows but no numeric column. -/
def dfNoNumericCols : DataFrame := ⟨[⟨"name", "object", [Cell.str "x", Cell.str "y"]⟩]⟩

/-- C3: the zero-numeric-columns guard does hold (the default empty
AnomalyFinding is returned), but a dataset with a numeric column and zero
rows drives IQRAnomalyDetector.detect into the unguarded division
total_anomalies / len(df), raising ZeroDivisionError, so the claim that
zero-row input never raises is violated by the code. -/
theorem iqr_detect_degenerate_inputs :
    iqr_detect OUTLIER_IQR_MULTIPLIER dfNoNumericCols =
      Except.ok { method := "IQR", total_anomalies := 0, anomaly_percentage := 0,
                  anomalies_by_column := [], anomaly_indices := [] }
    ∧ iqr_detect OUTLIER_IQR_MULTIPLIER dfZeroRowsNum = Except.error "ZeroDivisionError" :=
  ⟨by decide, by decide⟩

/-- C4 counterexample: on the zero-column dataset the calculator returns a
report with zero field scores whose overall_trust_score is the NaN of
numpy.mean applied to an empty list (modelled as none), which is not the
claimed NaN-safe default 0. -/
theorem empty_dataset_counterexample :
    (calculate_dataset_trust 7 ⟨[]⟩ none none none "ds" 0).field_scores = []
    ∧ (calculate_dataset_trust 7 ⟨[]⟩ none none none "ds" 0).overall_trust_score = none
    ∧ (calculate_dataset_trust 7 ⟨[]⟩ none none none "ds" 0).overall_trust_score ≠ some 0 :=
  ⟨rfl, rfl, by decide⟩

/-- C4 (amended): for every zero-column dataset and any optional inputs the
calculator returns, without raising, a DatasetTrustReport with zero field
scores whose overall_trust_score is NaN (the numpy.mean of an empty list),
not 0. -/
theorem empty_dataset_report (T : ℕ) (vr : Option ValidationResult)
    (ar : Option AnomalyReport) (dc : Option String) (name : String) (now : ℤ) :
    (calculate_dataset_trust T ⟨[]⟩ vr ar dc name now).field_scores = []
    ∧ (calculate_dataset_trust T ⟨[]⟩ vr ar dc name now).overall_trust_score = none :=
  ⟨rfl, rfl⟩

theorem unanimous_flag_imp_majority (reports : List (String × AnomalyReport))
    (hne : reports ≠ []) (i : ℕ)
    (h : combineRowFlag "unanimous" reports i = true) :
    combineRowFlag "majority" reports i = true := by
  have h2 : reports.all (fun r => decide (i ∈ r.2.anomaly_indices)) = true := h
  show decide ((reports.countP (fun r => decide (i ∈ r.2.anomaly_indices)) : ℚ) >
    (reports.length : ℚ) / 2) = true
  have hall : ∀ r ∈ reports, i ∈ r.2.anomaly_indices := by
    intro r hr
    exact of_decide_eq_true (List.all_eq_true.mp h2 r hr)
  have hcount : reports.countP (fun r => decide (i ∈ r.2.anomaly_indices)) = reports.length :=
    List.countP_eq_length.mpr (fun r hr => decide_eq_true (hall r hr))
  rw [decide_eq_true_eq, hcount]
  have hn : 0 < reports.length := List.length_pos.mpr hne
  have h1 : (1 : ℚ) ≤ (reports.length : ℚ) := by exact_mod_cast hn
  linarith

theorem majority_flag_imp_any (reports : List (String × AnomalyReport)) (i : ℕ)
    (h : combineRowFlag "majority" reports i = true) :
    combineRowFlag "any" reports i = true := by
  have h2 : decide ((reports.countP (fun r => decide (i ∈ r.2.anomaly_indices)) : ℚ) >
      (reports.length : ℚ) / 2) = true := h
  show reports.any (fun r => decide (i ∈ r.2.anomaly_indices)) = true
  have hgt := of_decide_eq_true h2
  have hpos : 0 < reports.countP (fun r => decide (i ∈ r.2.anomaly_indices)) := by
    by_contra hc
    push_neg at hc
    have hz : reports.countP (fun r => decide (i ∈ r.2.anomaly_indices)) = 0 :=
      Nat.le_zero.mp hc
    rw [hz] at hgt
    have h0 : (0 : ℚ) ≤ (reports.length : ℚ) / 2 := by positivity
    norm_num at hgt
    linarith
  obtain ⟨r, hr, hp⟩ := List.countP_pos_iff.mp hpos
  exact List.any_eq_true.mpr ⟨r, hr, hp⟩

/-- C5: for the same dataset and the same non-empty detector report set,
the rows flagged anomalous under unanimous voting are a subset of the rows
flagged under majority voting, which are a subset of the rows flagged
under any voting. -/
theorem ensemble_voting_subsets (df : DataFrame)
    (reports : List (String × AnomalyReport)) (hne : reports ≠ [])
    (u m a : AnomalyReport)
    (hu : combine_reports "unanimous" df reports = Except.ok u)
    (hm : combine_reports "majority" df reports = Except.ok m)
    (ha : combine_reports "any" df reports = Except.ok a) :
    u.anomaly_indices ⊆ m.anomaly_indices ∧ m.anomaly_indices ⊆ a.anomaly_indices := by
  unfold combine_reports at hu hm ha
  by_cases h0 : df.nrows = 0
  · rw [if_pos h0] at hu
    exact absurd hu (by simp)
  · rw [if_neg h0] at hu hm ha
    simp only [Except.ok.injEq] at hu hm ha
    subst hu
    subst hm
    subst ha
    constructor
    · intro x hx
      have hx2 : x ∈ (List.range df.nrows).filter (combineRowFlag "unanimous" reports) := hx
      have hx3 := List.mem_filter.mp hx2
      exact List.mem_filter.mpr ⟨hx3.1, unanimous_flag_imp_majority reports hne x hx3.2⟩
    · intro x hx
      have hx2 : x ∈ (List.range df.nrows).filter (combineRowFlag "majority" reports) := hx
      have hx3 := List.mem_filter.mp hx2
      exact List.mem_filter.mpr ⟨hx3.1, majority_flag_imp_any reports x hx3.2⟩

/-- A concrete one-detector ensemble input for the voting witness. -/
def repVW : AnomalyReport :=
  { method := "IQR", total_anomalies := 1, anomaly_percentage := 100,
    anomalies_by_column := [("value", 1)], anomaly_indices := [0] }

/-- A concrete one-row frame for the voting witness. -/
def dfVW : DataFrame := ⟨[⟨"value", "float64", [Cell.num 1]⟩]⟩

/-- The combined report of the voting witness for one voting rule. -/
def repOutVW (voting : String) : AnomalyReport :=
  { method := "Ensemble (" ++ voting ++ " voting)", total_anomalies := 1,
    anomaly_percentage := 100, anomalies_by_column := [("value", 1)],
    anomaly_indices := [0] }

theorem ensemble_voting_subsets_witness :
    (repOutVW "unanimous").anomaly_indices ⊆ (repOutVW "majority").anomaly_indices ∧
      (repOutVW "majority").anomaly_indices ⊆ (repOutVW "any").anomaly_indices :=
  ensemble_voting_subsets dfVW [("IQR", repVW)] (by decide)
    (repOutVW "unanimous") (repOutVW "majority") (repOutVW "any")
    (by norm_num [combine_reports, combineRowFlag, combineByColumn, lookupD, dfVW, repVW,
      repOutVW, DataFrame.nrows, List.range_succ])
    (by norm_num [combine_reports, combineRowFlag, combineByColumn, lookupD, dfVW, repVW,
      repOutVW, DataFrame.nrows, List.range_succ])
    (by norm_num [combine_reports, combineRowFlag, combineByColumn, lookupD, dfVW, repVW,
      repOutVW, DataFrame.nrows, List.range_succ])

theorem foldr_max_le (l : List ℕ) (t : ℕ) (h : ∀ x ∈ l, x ≤ t) : l.foldr max 0 ≤ t := by
  induction l with
  | nil => exact Nat.zero_le t
  | cons a l ih =>
    simp only [List.foldr_cons]
    exact max_le (h a (List.mem_cons_self a l))
      (ih (fun x hx => h x (List.mem_cons_of_mem a hx)))

theorem foldr_max_eq (l : List ℕ) (t : ℕ) (hmem : t ∈ l) (h : ∀ x ∈ l, x ≤ t) :
    l.foldr max 0 = t := by
  induction l with
  | nil => cases hmem
  | cons a l ih =>
    simp only [List.foldr_cons]
    rcases List.mem_cons.mp hmem with rfl | hmem2
    · exact max_eq_left (foldr_max_le l t (fun x hx => h x (List.mem_cons_of_mem t hx)))
    · rw [ih hmem2 (fun x hx => h x (List.mem_cons_of_mem a hx))]
      exact max_eq_right (h a (List.mem_cons_self a l))

theorem insertRows_mem (ds : String) (ts : ℕ) (b : ℕ) (l : List TrustScore)
    (r : ScoreRow) (hr : r ∈ insertRows ds ts b l) :
    r.dataset_name = ds ∧ r.timestamp = ts ∧
      r.field_name ∈ l.map TrustScore.field_name := by
  induction l generalizing b with
  | nil => cases hr
  | cons s tl ih =>
    rcases List.mem_cons.mp hr with rfl | h2
    · exact ⟨rfl, rfl, List.mem_cons_self _ _⟩
    · obtain ⟨h3, h4, h5⟩ := ih (b + 1) h2
      exact ⟨h3, h4, List.mem_cons_of_mem _ h5⟩

theorem insertRows_field_mem (ds : String) (ts : ℕ) (b : ℕ) (l : List TrustScore)
    (s : TrustScore) (hs : s ∈ l) :
    ∃ r ∈ insertRows ds ts b l, r.field_name = s.field_name ∧ r.timestamp = ts := by
  induction l generalizing b with
  | nil => cases hs
  | cons s2 tl ih =>
    rcases List.mem_cons.mp hs with rfl | h2
    · exact ⟨scoreRow ds ts b s, List.mem_cons_self _ _, rfl, rfl⟩
    · obtain ⟨r, hr, hf, ht⟩ := ih (b + 1) h2
      exact ⟨r, List.mem_cons_of_mem _ hr, hf, ht⟩

theorem insertRows_map_field (ds : String) (ts : ℕ) (b : ℕ) (l : List TrustScore) :
    (insertRows ds ts b l).map ScoreRow.field_name = l.map TrustScore.field_name := by
  induction l generalizing b with
  | nil => rfl
  | cons s tl ih =>
    simp only [insertRows, List.map_cons, ih (b + 1)]
    rfl

/-- C9: after save_report, get_latest_scores for the report's dataset
returns exactly the just-written rows: one record per field of the report
(its field-name list, duplicate-free), each carrying the saved scores
exactly (the rational model is exact, hence within any floating-point
tolerance), because latest picks per field the row of maximum timestamp.
The rows already stored for this dataset must predate the write and
concern fields of the report, the append-only history of one dataset
schema. -/
theorem store_roundtrip (store : List ScoreRow) (ts : ℕ) (rep : DatasetTrustReport)
    (hts : ∀ r ∈ store, r.dataset_name = rep.dataset_name → r.timestamp < ts)
    (hfields : ∀ r ∈ store, r.dataset_name = rep.dataset_name →
        r.field_name ∈ rep.field_scores.map TrustScore.field_name)
    (hnodup : (rep.field_scores.map TrustScore.field_name).Nodup) :
    get_latest_scores (save_report store ts rep) rep.dataset_name =
      insertRows rep.dataset_name ts (store.length + 1) rep.field_scores
    ∧ (get_latest_scores (save_report store ts rep) rep.dataset_name).map
        ScoreRow.field_name = rep.field_scores.map TrustScore.field_name
    ∧ ((get_latest_scores (save_report store ts rep) rep.dataset_name).map
        ScoreRow.field_name).Nodup := by
  have hmax : ∀ f, f ∈ rep.field_scores.map TrustScore.field_name →
      maxTimestamp (save_report store ts rep) rep.dataset_name f = ts := by
    intro f hf
    unfold maxTimestamp
    apply foldr_max_eq
    · obtain ⟨s, hs, hfeq⟩ := List.mem_map.mp hf
      obtain ⟨r, hrmem, hrf, hrt⟩ :=
        insertRows_field_mem rep.dataset_name ts (store.length + 1) rep.field_scores s hs
      have hrprops := insertRows_mem rep.dataset_name ts (store.length + 1)
        rep.field_scores r hrmem
      apply List.mem_map.mpr
      refine ⟨r, ?_, hrt⟩
      apply List.mem_filter.mpr
      refine ⟨List.mem_append_right store hrmem, ?_⟩
      simp [hrprops.1, hrf, hfeq]
    · intro x hx
      obtain ⟨r, hrmem, hrx⟩ := List.mem_map.mp hx
      have hfil := List.mem_filter.mp hrmem
      have hpred : r.dataset_name = rep.dataset_name ∧ r.field_name = f := by
        have h2 := hfil.2
        simp only [Bool.and_eq_true, beq_iff_eq] at h2
        exact h2
      rcases List.mem_append.mp hfil.1 with hin | hin
      · subst hrx
        exact le_of_lt (hts r hin hpred.1)
      · subst hrx
        exact le_of_eq (insertRows_mem rep.dataset_name ts (store.length + 1)
          rep.field_scores r hin).2.1
  have hsplit : get_latest_scores (save_report store ts rep) rep.dataset_name =
      store.filter (fun r => r.dataset_name == rep.dataset_name &&
          r.timestamp == maxTimestamp (save_report store ts rep) rep.dataset_name r.field_name)
        ++ (insertRows rep.dataset_name ts (store.length + 1) rep.field_scores).filter
          (fun r => r.dataset_name == rep.dataset_name &&
            r.timestamp == maxTimestamp (save_report store ts rep) rep.dataset_name
              r.field_name) := List.filter_append _ _
  have hstore : store.filter (fun r => r.dataset_name == rep.dataset_name &&
      r.timestamp == maxTimestamp (save_report store ts rep) rep.dataset_name r.field_name)
      = [] := by
    apply List.filter_eq_nil_iff.mpr
    intro r hr hp
    simp only [Bool.and_eq_true, beq_iff_eq] at hp
    have hlt := hts r hr hp.1
    have hfm := hfields r hr hp.1
    rw [hmax r.field_name hfm] at hp
    omega
  have hnew : (insertRows rep.dataset_name ts (store.length + 1) rep.field_scores).filter
      (fun r => r.dataset_name == rep.dataset_name &&
        r.timestamp == maxTimestamp (save_report store ts rep) rep.dataset_name r.field_name)
      = insertRows rep.dataset_name ts (store.length + 1) rep.field_scores := by
    apply List.filter_eq_self.mpr
    intro r hr
    have hrprops := insertRows_mem rep.dataset_name ts (store.length + 1) rep.field_scores r hr
    rw [hmax r.field_name hrprops.2.2]
    simp [hrprops.1, hrprops.2.1]
  have hmain : get_latest_scores (save_report store ts rep) rep.dataset_name =
      insertRows rep.dataset_name ts (store.length + 1) rep.field_scores := by
    rw [hsplit, hstore, hnew, List.nil_append]
  refine ⟨hmain, ?_, ?_⟩
  · rw [hmain, insertRows_map_field]
  · rw [hmain, insertRows_map_field]
    exact hnodup

/-- A stale previously-saved row for the round-trip witness. -/
def staleRowW : ScoreRow :=
  { id := 1, dataset_name := "ds", field_name := "order_id", trust_score := 80,
    completeness_score := 80, validity_score := 80, anomaly_score := 80,
    freshness_score := 80, grade := "B", color := "#f39c12", sample_size := 2,
    timestamp := 3, reasons := [], warnings := [] }

/-- The report saved by the round-trip witness. -/
def reportSW : DatasetTrustReport :=
  { dataset_name := "ds", overall_trust_score := some 96, field_scores := [scoreGW],
    total_fields := 1, high_trust_fields := 1, medium_trust_fields := 0,
    low_trust_fields := 0 }

theorem store_roundtrip_witness :
    get_latest_scores (save_report [staleRowW] 5 reportSW) reportSW.dataset_name =
      insertRows reportSW.dataset_name 5 ([staleRowW].length + 1) reportSW.field_scores
    ∧ (get_latest_scores (save_report [staleRowW] 5 reportSW) reportSW.dataset_name).map
        ScoreRow.field_name = reportSW.field_scores.map TrustScore.field_name
    ∧ ((get_latest_scores (save_report [staleRowW] 5 reportSW) reportSW.dataset_name).map
        ScoreRow.field_name).Nodup :=
  store_roundtrip [staleRowW] 5 reportSW (by decide) (by decide) (by decide)

end TableauTrust
